import Mathlib

/-!
Verification development for the BlockRun LLM TypeScript SDK
(x402 payment-required retry protocol).

The definitions below are a shallow embedding of the SDK's protocol engine:
  * `src/x402.ts` (`parsePaymentRequired`, `extractPaymentDetails`,
    `createPaymentPayload`, the fixed `USDC_DOMAIN`),
  * `src/validation.ts` (`sanitizeErrorResponse`, `validateResourceUrl`),
  * `src/client.ts` (`LLMClient.requestWithPayment` /
    `handlePaymentAndRetry` and the session spend accumulator),
  * `src/solana-client.ts` (`SolanaLLMClient.handlePaymentAndRetry`).

JavaScript runtime values flowing out of `JSON.parse` are modelled by the
inductive type `JsVal` (with an explicit `undefined` constructor for the value
`undefined` produced by missing-property access); JavaScript truthiness,
property access (including the `TypeError` raised when reading a property
of `null`/`undefined`), `||`-defaulting, `===` comparison with strings,
`atob`/`btoa`, `JSON.parse` / `JSON.stringify`, `parseFloat` and `BigInt`
conversion are given explicit executable definitions.  JavaScript numbers
are idealised as rationals (`ℚ`); `NaN` is represented by `Option.none`
where it can arise.  Asynchronous external effects (EIP-712 signing, the
Solana transaction builder with its RPC traffic, the HTTP transport) are
passed in as explicit function-valued oracles, and the orchestrator models
return a trace counting HTTP sends to the API and payment-builder
invocations.
-/

namespace BlockRun

/-! ## JavaScript values (post-`JSON.parse` runtime values plus `undefined`) -/

inductive JsVal : Type where
  | undefined : JsVal
  | null : JsVal
  | bool : Bool → JsVal
  | num : ℚ → JsVal
  | str : String → JsVal
  | arr : List JsVal → JsVal
  | obj : List (String × JsVal) → JsVal
  deriving Repr, Inhabited

namespace JsVal

/-- JavaScript truthiness of a value.  `undefined`, `null`, `false`, `0`,
and `""` are falsy; every array and object is truthy.  (`NaN` cannot be
produced by `JSON.parse`.) -/
def truthy : JsVal → Bool
  | undefined => false
  | null => false
  | bool b => b
  | num q => q ≠ 0
  | str s => s ≠ ""
  | arr _ => true
  | obj _ => true

/-- Last-binding lookup in an object's field list.  `JSON.parse` keeps the
last occurrence of a duplicated key, which is what a lookup on the parsed
object observes. -/
def lookupField (fields : List (String × JsVal)) (k : String) : Option JsVal :=
  (fields.reverse.find? (fun p => p.1 == k)).map (·.2)

/-- Property access `v.k`.  Reading a property of `null` or `undefined`
throws a `TypeError` (modelled as `Except.error ()`); on any other
non-object value the result is `undefined`; on objects it is the field
value or `undefined` when absent. -/
def getProp : JsVal → String → Except Unit JsVal
  | undefined, _ => .error ()
  | null, _ => .error ()
  | obj fields, k => .ok ((lookupField fields k).getD undefined)
  | _, _ => .ok undefined

/-- `null` or `undefined`: the values whose property access throws a
`TypeError`. -/
def isNullish : JsVal → Bool
  | undefined => true
  | null => true
  | _ => false

/-- Optional-chaining access `v?.k`: `undefined` when the receiver is
`null`/`undefined`, otherwise ordinary property access. -/
def optProp : JsVal → String → JsVal
  | undefined, _ => undefined
  | null, _ => undefined
  | obj fields, k => (lookupField fields k).getD undefined
  | _, _ => undefined

/-- The JavaScript `a || b` operator: `a` when truthy, else `b`. -/
def jsOr (a b : JsVal) : JsVal := if a.truthy then a else b

/-- `Array.isArray`. -/
def isArray : JsVal → Bool
  | arr _ => true
  | _ => false

end JsVal

/-! ## `atob` / `btoa` (forgiving base64, WHATWG)

`atob` first strips ASCII whitespace, then strips at most two trailing
`=` when the length is a multiple of four, rejects a leftover length of
1 mod 4 and any character outside the base64 alphabet, and decodes the
6-bit groups into a byte string (code points 0–255).  `btoa` is the
standard encoder with `=` padding. -/

def base64Alphabet : String :=
  "ABCDEFGHIJKLMNOPQRSTUVWXYZabcdefghijklmnopqrstuvwxyz0123456789+/"

def base64Index (c : Char) : Option Nat :=
  (base64Alphabet.toList.indexOf? c).map (·)

def isAsciiWhitespace (c : Char) : Bool :=
  c = ' ' ∨ c = '\t' ∨ c = '\n' ∨ c = '\x0c' ∨ c = '\r'

/-- Decode a run of base64 digit values (already mapped to 0–63) into
bytes: every full group of four digits yields three bytes, a final group
of two yields one byte and of three yields two bytes. -/
def base64DecodeVals : List Nat → Option (List Nat)
  | [] => some []
  | [_] => none
  | [a, b] => some [(a * 4 + b / 16) % 256]
  | [a, b, c] => some [(a * 4 + b / 16) % 256, (b % 16 * 16 + c / 4) % 256]
  | a :: b :: c :: d :: rest => do
      let tail ← base64DecodeVals rest
      pure ((a * 4 + b / 16) % 256 ::
            (b % 16 * 16 + c / 4) % 256 ::
            (c % 4 * 64 + d) % 256 :: tail)

/-- JavaScript `atob`.  Returns `none` when the input is not forgiving
base64 (the `InvalidCharacterError` throw). -/
def atob (s : String) : Option String := do
  let chars := s.toList.filter (fun c => ¬ isAsciiWhitespace c)
  let chars :=
    if chars.length % 4 = 0 then
      if chars.reverse.take 2 = ['=', '='] then chars.dropLast.dropLast
      else if chars.reverse.take 1 = ['='] then chars.dropLast
      else chars
    else chars
  if chars.length % 4 = 1 then none
  else do
    let vals ← chars.mapM base64Index
    let bytes ← base64DecodeVals vals
    pure (String.mk (bytes.map (fun b => Char.ofNat b)))

/-- JavaScript `btoa` on a string of code points below 256 (the SDK only
applies it to `JSON.stringify` output). -/
def btoa (s : String) : String :=
  let rec go : List Nat → List Char
    | [] => []
    | [a] =>
        [base64Alphabet.toList.getD (a / 4) 'A',
         base64Alphabet.toList.getD (a % 4 * 16) 'A', '=', '=']
    | [a, b] =>
        [base64Alphabet.toList.getD (a / 4) 'A',
         base64Alphabet.toList.getD (a % 4 * 16 + b / 16) 'A',
         base64Alphabet.toList.getD (b % 16 * 4) 'A', '=']
    | a :: b :: c :: rest =>
        base64Alphabet.toList.getD (a / 4) 'A' ::
        base64Alphabet.toList.getD (a % 4 * 16 + b / 16) 'A' ::
        base64Alphabet.toList.getD (b % 16 * 4 + c / 64) 'A' ::
        base64Alphabet.toList.getD (c % 64) 'A' :: go rest
  String.mk (go (s.toList.map Char.toNat))

/-! ## `JSON.parse`

A strict JSON parser (recursive descent over `List Char` with a fuel
argument for termination; the fuel bounds nesting depth, so
`length + 1` always suffices).  JSON numbers are read exactly into `ℚ`
(the double-rounding of the JS engine is idealised away).  Lone UTF-16
surrogates in string escapes, which JavaScript would keep as unpaired
code units, are not representable in Lean strings and are rejected. -/

def isJsonWs (c : Char) : Bool := c = ' ' ∨ c = '\t' ∨ c = '\n' ∨ c = '\r'

def skipWs (s : List Char) : List Char := s.dropWhile isJsonWs

def hexVal (c : Char) : Option Nat :=
  if '0' ≤ c ∧ c ≤ '9' then some (c.toNat - '0'.toNat)
  else if 'a' ≤ c ∧ c ≤ 'f' then some (c.toNat - 'a'.toNat + 10)
  else if 'A' ≤ c ∧ c ≤ 'F' then some (c.toNat - 'A'.toNat + 10)
  else none

/-- Parse the body of a JSON string literal (after the opening quote),
returning the string and the input after the closing quote. -/
def parseJsonString : Nat → List Char → Option (String × List Char)
  | 0, _ => none
  | _ + 1, [] => none
  | _ + 1, '"' :: rest => some ("", rest)
  | fuel + 1, '\\' :: esc =>
      (match esc with
       | '"' :: rest => (parseJsonString fuel rest).map (fun (s, r) => ("\"" ++ s, r))
       | '\\' :: rest => (parseJsonString fuel rest).map (fun (s, r) => ("\\" ++ s, r))
       | '/' :: rest => (parseJsonString fuel rest).map (fun (s, r) => ("/" ++ s, r))
       | 'b' :: rest => (parseJsonString fuel rest).map (fun (s, r) => ("\x08" ++ s, r))
       | 'f' :: rest => (parseJsonString fuel rest).map (fun (s, r) => ("\x0c" ++ s, r))
       | 'n' :: rest => (parseJsonString fuel rest).map (fun (s, r) => ("\n" ++ s, r))
       | 'r' :: rest => (parseJsonString fuel rest).map (fun (s, r) => ("\r" ++ s, r))
       | 't' :: rest => (parseJsonString fuel rest).map (fun (s, r) => ("\t" ++ s, r))
       | 'u' :: h1 :: h2 :: h3 :: h4 :: rest => do
           let a ← hexVal h1
           let b ← hexVal h2
           let c ← hexVal h3
           let d ← hexVal h4
           let code := a * 4096 + b * 256 + c * 16 + d
           if h : code.isValidChar then
             (parseJsonString fuel rest).map
               (fun (s, r) => (String.mk [Char.ofNatAux code h] ++ s, r))
           else if 0xD800 ≤ code ∧ code ≤ 0xDBFF then
             -- surrogate pair: require a matching low-surrogate escape
             match rest with
             | '\\' :: 'u' :: g1 :: g2 :: g3 :: g4 :: rest2 => do
                 let a2 ← hexVal g1
                 let b2 ← hexVal g2
                 let c2 ← hexVal g3
                 let d2 ← hexVal g4
                 let low := a2 * 4096 + b2 * 256 + c2 * 16 + d2
                 if 0xDC00 ≤ low ∧ low ≤ 0xDFFF then
                   let cp := 0x10000 + (code - 0xD800) * 1024 + (low - 0xDC00)
                   if h2 : cp.isValidChar then
                     (parseJsonString fuel rest2).map
                       (fun (s, r) => (String.mk [Char.ofNatAux cp h2] ++ s, r))
                   else none
                 else none
             | _ => none
           else none
       | _ => none)
  | fuel + 1, c :: rest =>
      if c.toNat < 0x20 then none
      else (parseJsonString fuel rest).map (fun (s, r) => (String.mk [c] ++ s, r))

def isDigitChar (c : Char) : Bool := '0' ≤ c ∧ c ≤ '9'

def digitsToNat (ds : List Char) : Nat :=
  ds.foldl (fun acc c => acc * 10 + (c.toNat - '0'.toNat)) 0

/-- Parse a JSON number token (strict grammar: `-?(0|[1-9][0-9]*)`
followed by an optional fraction and optional exponent) into `ℚ`. -/
def parseJsonNumber (s : List Char) : Option (ℚ × List Char) := do
  let (neg, s) := match s with
    | '-' :: rest => (true, rest)
    | _ => (false, s)
  let intDigits := s.takeWhile isDigitChar
  let s1 := s.dropWhile isDigitChar
  if intDigits.isEmpty then none
  else if intDigits.length > 1 ∧ intDigits.headD '0' = '0' then none
  else
    let (fracDigits, s2) := match s1 with
      | '.' :: rest =>
          (rest.takeWhile isDigitChar, rest.dropWhile isDigitChar)
      | _ => ([], s1)
    if s1 ≠ s2 ∧ fracDigits.isEmpty then none
    else
      let (expOk, expNeg, expDigits, s3) := match s2 with
        | 'e' :: '+' :: rest => (true, false, rest.takeWhile isDigitChar, rest.dropWhile isDigitChar)
        | 'e' :: '-' :: rest => (true, true, rest.takeWhile isDigitChar, rest.dropWhile isDigitChar)
        | 'e' :: rest => (true, false, rest.takeWhile isDigitChar, rest.dropWhile isDigitChar)
        | 'E' :: '+' :: rest => (true, false, rest.takeWhile isDigitChar, rest.dropWhile isDigitChar)
        | 'E' :: '-' :: rest => (true, true, rest.takeWhile isDigitChar, rest.dropWhile isDigitChar)
        | 'E' :: rest => (true, false, rest.takeWhile isDigitChar, rest.dropWhile isDigitChar)
        | _ => (false, false, [], s2)
      if expOk ∧ expDigits.isEmpty then none
      else
        let mantissa : ℚ :=
          (digitsToNat intDigits : ℚ) +
            (digitsToNat fracDigits : ℚ) / ((10 : ℚ) ^ fracDigits.length)
        let scaled : ℚ :=
          if ¬ expOk then mantissa
          else if expNeg then mantissa / ((10 : ℚ) ^ digitsToNat expDigits)
          else mantissa * ((10 : ℚ) ^ digitsToNat expDigits)
        some (if neg then -scaled else scaled, s3)

mutual

def parseJsonValue : Nat → List Char → Option (BlockRun.JsVal × List Char)
  | 0, _ => none
  | fuel + 1, input =>
      match skipWs input with
      | 'n' :: 'u' :: 'l' :: 'l' :: rest => some (.null, rest)
      | 't' :: 'r' :: 'u' :: 'e' :: rest => some (.bool true, rest)
      | 'f' :: 'a' :: 'l' :: 's' :: 'e' :: rest => some (.bool false, rest)
      | '"' :: rest =>
          (parseJsonString (rest.length + 1) rest).map (fun (s, r) => (.str s, r))
      | '[' :: rest =>
          (match skipWs rest with
           | ']' :: r2 => some (.arr [], r2)
           | r2 =>
             (parseJsonItems fuel r2).map (fun (l, r) => (.arr l, r)))
      | '{' :: rest =>
          (match skipWs rest with
           | '}' :: r2 => some (.obj [], r2)
           | r2 =>
             (parseJsonMembers fuel r2).map (fun (l, r) => (.obj l, r)))
      | s => (parseJsonNumber s).map (fun (q, r) => (.num q, r))

/-- Comma-separated array items up to the closing bracket. -/
def parseJsonItems : Nat → List Char → Option (List BlockRun.JsVal × List Char)
  | 0, _ => none
  | fuel + 1, input => do
      let (v, rest) ← parseJsonValue fuel input
      match skipWs rest with
      | ',' :: r2 => (parseJsonItems fuel r2).map (fun (l, r) => (v :: l, r))
      | ']' :: r2 => some ([v], r2)
      | _ => none

/-- Comma-separated object members up to the closing brace. -/
def parseJsonMembers : Nat → List Char → Option (List (String × BlockRun.JsVal) × List Char)
  | 0, _ => none
  | fuel + 1, input => do
      match skipWs input with
      | '"' :: rest => do
          let (k, r1) ← parseJsonString (rest.length + 1) rest
          match skipWs r1 with
          | ':' :: r2 => do
              let (v, r3) ← parseJsonValue fuel r2
              match skipWs r3 with
              | ',' :: r4 => (parseJsonMembers fuel r4).map (fun (l, r) => ((k, v) :: l, r))
              | '}' :: r4 => some ([(k, v)], r4)
              | _ => none
          | _ => none
      | _ => none

end

/-- JavaScript `JSON.parse`: parse a complete value, allowing only
trailing whitespace. -/
def jsonParse (s : String) : Option JsVal :=
  match parseJsonValue (s.length + 1) s.toList with
  | some (v, rest) => if (skipWs rest).isEmpty then some v else none
  | none => none

/-! ## `JSON.stringify` -/

/-- Escape the body of a string for JSON output. -/
def stringifyStringBody (s : List Char) : String :=
  String.join (s.map (fun c =>
    if c = '"' then "\\\""
    else if c = '\\' then "\\\\"
    else if c = '\n' then "\\n"
    else if c = '\r' then "\\r"
    else if c = '\t' then "\\t"
    else if c = '\x08' then "\\b"
    else if c = '\x0c' then "\\f"
    else if c.toNat < 0x20 then
      let hexDigit := fun (n : Nat) =>
        String.mk [(if n < 10 then Char.ofNat ('0'.toNat + n)
                    else Char.ofNat ('a'.toNat + n - 10))]
      "\\u00" ++ hexDigit (c.toNat / 16) ++ hexDigit (c.toNat % 16)
    else String.mk [c]))

def stringifyString (s : String) : String := "\"" ++ stringifyStringBody s.toList ++ "\""

/-- Decimal digits of the fractional part of `q` (0 ≤ q < 1) by long
division, up to `n` digits, trailing zeros stripped.  JS prints doubles
with the shortest round-tripping decimal; for the finitely-representable
rationals the SDK manipulates this long division is exact. -/
def fracDigits : Nat → ℚ → List Char
  | 0, _ => []
  | n + 1, q =>
      if q = 0 then []
      else
        let q10 := q * 10
        let d : ℤ := q10.floor
        let c := Char.ofNat ('0'.toNat + d.toNat)
        let rest := fracDigits n (q10 - (d : ℚ))
        if rest.isEmpty ∧ d = 0 then [] else c :: rest

def stringifyNum (q : ℚ) : String :=
  if q.den = 1 then toString q.num
  else
    let sign := if q < 0 then "-" else ""
    let a := |q|
    let ip : ℤ := a.floor
    let frac := fracDigits 17 (a - (ip : ℚ))
    let frac := if frac.isEmpty then ['0'] else frac
    sign ++ toString ip ++ "." ++ String.mk frac

mutual

/-- `JSON.stringify`.  Returns `none` for a top-level `undefined`
(JavaScript returns the value `undefined`, not a string, there). -/
def stringifyVal : JsVal → Option String
  | .undefined => none
  | .null => some "null"
  | .bool b => some (cond b "true" "false")
  | .num q => some (stringifyNum q)
  | .str s => some (stringifyString s)
  | .arr l => some ("[" ++ String.intercalate "," (stringifyItems l) ++ "]")
  | .obj l => some ("\x7b" ++ String.intercalate "," (stringifyMembers l) ++ "\x7d")

/-- Array elements: `undefined` prints as `null`. -/
def stringifyItems : List JsVal → List String
  | [] => []
  | v :: rest => ((stringifyVal v).getD "null") :: stringifyItems rest

/-- Object members: fields holding `undefined` are omitted. -/
def stringifyMembers : List (String × JsVal) → List String
  | [] => []
  | (k, v) :: rest =>
      match stringifyVal v with
      | some s => (stringifyString k ++ ":" ++ s) :: stringifyMembers rest
      | none => stringifyMembers rest

end

/-! ## JS number conversions (`parseFloat`, `BigInt`) -/

/-- `parseFloat` on a string: skip leading whitespace, then read the
longest decimal-literal prefix; `none` models `NaN` (and the
non-finite `Infinity` results, which the SDK never produces). -/
def parseFloatStr (s : String) : Option ℚ :=
  let s := s.toList.dropWhile isAsciiWhitespace
  let (neg, s) := match s with
    | '-' :: rest => (true, rest)
    | '+' :: rest => (false, rest)
    | _ => (false, s)
  let intDigits := s.takeWhile isDigitChar
  let s1 := s.dropWhile isDigitChar
  let (fracDigits, s2) := match s1 with
    | '.' :: rest => (rest.takeWhile isDigitChar, rest.dropWhile isDigitChar)
    | _ => ([], s1)
  if intDigits.isEmpty ∧ fracDigits.isEmpty then none
  else
    let expVal : Option (Bool × List Char) := match s2 with
      | 'e' :: '+' :: rest => some (false, rest.takeWhile isDigitChar)
      | 'e' :: '-' :: rest => some (true, rest.takeWhile isDigitChar)
      | 'e' :: rest => some (false, rest.takeWhile isDigitChar)
      | 'E' :: '+' :: rest => some (false, rest.takeWhile isDigitChar)
      | 'E' :: '-' :: rest => some (true, rest.takeWhile isDigitChar)
      | 'E' :: rest => some (false, rest.takeWhile isDigitChar)
      | _ => none
    let mantissa : ℚ :=
      (digitsToNat intDigits : ℚ) +
        (digitsToNat fracDigits : ℚ) / ((10 : ℚ) ^ fracDigits.length)
    let value : ℚ := match expVal with
      | some (en, ed) =>
          if ed.isEmpty then mantissa
          else if en then mantissa / ((10 : ℚ) ^ digitsToNat ed)
          else mantissa * ((10 : ℚ) ^ digitsToNat ed)
      | none => mantissa
    some (if neg then -value else value)

/-- `parseFloat` applied to a runtime value coerces through `ToString`
first; primitives are modelled exactly, arrays/objects (whose string
coercion the SDK never exercises here) conservatively give `NaN`. -/
def jsParseFloat : JsVal → Option ℚ
  | .num q => some q
  | .str s => parseFloatStr s
  | _ => none

/-- `BigInt(string)`: whitespace-trimmed; empty means 0; otherwise an
optionally-signed run of decimal digits (the hex/octal/binary prefixes
are never produced by the protocol and are modelled as failures);
anything else throws a `SyntaxError` (`none`). -/
def parseBigIntStr (s : String) : Option ℤ :=
  let t := (s.toList.dropWhile isAsciiWhitespace).reverse.dropWhile isAsciiWhitespace |>.reverse
  match t with
  | [] => some 0
  | '-' :: ds => if ds ≠ [] ∧ ds.all isDigitChar then some (-(digitsToNat ds : ℤ)) else none
  | '+' :: ds => if ds ≠ [] ∧ ds.all isDigitChar then some (digitsToNat ds : ℤ) else none
  | ds => if ds.all isDigitChar then some (digitsToNat ds : ℤ) else none

/-- `BigInt(v)` on a runtime value: strings parse, integral numbers
convert, booleans are 0/1, everything else throws (`none`). -/
def jsBigInt : JsVal → Option ℤ
  | .str s => parseBigIntStr s
  | .num q => if q.den = 1 then some q.num else none
  | .bool b => some (cond b 1 0)
  | _ => none

/-! ## Challenge Codec — `parsePaymentRequired` (src/x402.ts)

```ts
export function parsePaymentRequired(headerValue: string): PaymentRequired {
  try {
    const decoded = atob(headerValue);
    const parsed = JSON.parse(decoded);
    if (!parsed.accepts || !Array.isArray(parsed.accepts)) {
      throw new Error("Invalid payment required structure: missing or invalid 'accepts' field");
    }
    return parsed as PaymentRequired;
  } catch (error) { ... }
}
```

The `catch` re-throws the structural error unchanged (recognised by its
message) and replaces every other thrown error — base64 failure, JSON
failure, and the `TypeError` raised by `parsed.accepts` when the parsed
root is `null` — with the generic parse error, so the two error kinds
are modelled directly as distinct constructors. -/

inductive ChallengeError : Type where
  /-- base64 / JSON / property-access failure, reported as
  "Failed to parse payment required header: invalid format". -/
  | parseError : ChallengeError
  /-- structural-invariant failure, reported as
  "Invalid payment required structure: missing or invalid 'accepts' field". -/
  | structureError : ChallengeError
  deriving Repr, DecidableEq

def parsePaymentRequired (headerValue : String) : Except ChallengeError JsVal :=
  match atob headerValue with
  | none => .error .parseError
  | some decoded =>
    match jsonParse decoded with
    | none => .error .parseError
    | some parsed =>
      match parsed.getProp "accepts" with
      | .error () => .error .parseError
      | .ok accepts =>
        if ¬ accepts.truthy ∨ ¬ accepts.isArray then .error .structureError
        else .ok parsed

/-! ## Challenge Codec — `extractPaymentDetails` (src/x402.ts, v2 with
network preference)

Runtime errors thrown while selecting the payment option: the explicit
`Error` throws carry their message; ill-typed server data (a non-array
truthy `accepts`, a `null` list entry, …) surfaces as a `TypeError` from
a property access or method call, modelled as a distinct constructor. -/

inductive RunError : Type where
  | jsError (message : String) : RunError
  | typeError : RunError
  deriving Repr, DecidableEq

def noPaymentOptionsMsg : String := "No payment options in payment required response"
def noAmountMsg : String := "No amount found in payment requirements"

/-- `accepts.find((opt) => opt.network === preferredNetwork)`: scan for
the first entry whose `network` property is exactly the given string
(strict equality with a string matches only an identical string); a
`TypeError` from accessing `network` on a `null`/`undefined` entry
propagates. -/
def findByNetwork (preferred : String) : List JsVal → Except RunError (Option JsVal)
  | [] => .ok none
  | opt :: rest =>
      match opt.getProp "network" with
      | .error () => .error .typeError
      | .ok (.str s) =>
          if s = preferred then .ok (some opt)
          else findByNetwork preferred rest
      | .ok _ => findByNetwork preferred rest

/-- The field-extraction tail of `extractPaymentDetails`, applied to the
selected option (`option.amount || option.maxAmountRequired`, the
`!amount` guard, and the result record). -/
structure PaymentDetails where
  amount : JsVal
  recipient : JsVal
  network : JsVal
  asset : JsVal
  scheme : JsVal
  maxTimeoutSeconds : JsVal
  extra : JsVal
  resource : JsVal
  deriving Repr

def extractFromOption (paymentRequired option : JsVal) :
    Except RunError PaymentDetails :=
  -- `const amount = option.amount || option.maxAmountRequired;` — the
  -- first property access on a nullish option throws
  if option.isNullish then .error .typeError
  else
    let amount := (option.optProp "amount").jsOr (option.optProp "maxAmountRequired")
    if ¬ amount.truthy then .error (.jsError noAmountMsg)
    -- the result record reads the remaining option fields and
    -- `paymentRequired.resource` (throwing on a nullish receiver)
    else if paymentRequired.isNullish then .error .typeError
    else
      .ok { amount := amount
            recipient := option.optProp "payTo"
            network := option.optProp "network"
            asset := option.optProp "asset"
            scheme := option.optProp "scheme"
            maxTimeoutSeconds := (option.optProp "maxTimeoutSeconds").jsOr (.num 300)
            extra := option.optProp "extra"
            resource := paymentRequired.optProp "resource" }

/-- `extractPaymentDetails(paymentRequired, preferredNetwork?)`
(src/x402.ts lines 435–480 of the v2 module):

```ts
const accepts = paymentRequired.accepts || [];
if (accepts.length === 0) throw new Error("No payment options...");
let option = null;
if (preferredNetwork) option = accepts.find((opt) => opt.network === preferredNetwork) || null;
if (!option) option = accepts[0];
const amount = option.amount || option.maxAmountRequired;
if (!amount) throw new Error("No amount found...");
return { amount, recipient: option.payTo, network: option.network, asset: option.asset,
         scheme: option.scheme, maxTimeoutSeconds: option.maxTimeoutSeconds || 300,
         extra: option.extra, resource: paymentRequired.resource };
```

A truthy non-array `accepts` (which JavaScript would crash on at
`.find` / `accepts[0].amount`, or slice as a string) is modelled by the
`TypeError` outcome; in every call site `accepts` has already been
validated to be an array. -/
def extractPaymentDetails (paymentRequired : JsVal) (preferredNetwork : Option String) :
    Except RunError PaymentDetails :=
  -- `const accepts = paymentRequired.accepts || [];`
  if paymentRequired.isNullish then .error .typeError
  else
    let acceptsVal := (paymentRequired.optProp "accepts").jsOr (.arr [])
    match acceptsVal with
    | .arr accepts =>
        if accepts.isEmpty then .error (.jsError noPaymentOptionsMsg)
        else
          match (match preferredNetwork with
                 | some pref => findByNetwork pref accepts
                 | none => .ok none) with
          | .error e => .error e
          | .ok found =>
              extractFromOption paymentRequired
                (match found with
                 | some o => o
                 | none => accepts.headD .null)
    | _ => .error .typeError

def SOLANA_NETWORK : String := "solana:5eykt4UsFv8P8NJdTREpY1vzqKqZKvdp"
def USDC_SOLANA : String := "EPjFWdd5AufqSSqeM2qN1xzybapC8G4wEGGkZwyTDt1v"

/-! ## Resource-URL Guard — `validateResourceUrl` (src/validation.ts)

`new URL(...)` is modelled by a simplified WHATWG parser handling
`scheme://[userinfo@]host[:port]/…`; strings without that shape fail to
parse (model of the constructor throwing).  Scheme and host are
lower-cased as the URL standard requires; `protocol` includes the
trailing colon as in the DOM API. -/

structure UrlParts where
  protocol : String
  hostname : String
  deriving Repr, DecidableEq

def isSchemeChar (c : Char) : Bool :=
  c.isAlpha ∨ c.isDigit ∨ c = '+' ∨ c = '-' ∨ c = '.'

def parseUrl (s : String) : Option UrlParts := do
  let chars := s.toList
  let scheme := chars.takeWhile isSchemeChar
  let rest := chars.dropWhile isSchemeChar
  if scheme.isEmpty ∨ ¬ (scheme.headD '0').isAlpha then none
  else
    match rest with
    | ':' :: '/' :: '/' :: tail =>
        let authority := tail.takeWhile (fun c => c ≠ '/' ∧ c ≠ '?' ∧ c ≠ '#')
        let hostPort := (authority.reverse.takeWhile (fun c => c ≠ '@')).reverse
        let host := hostPort.takeWhile (fun c => c ≠ ':')
        if host.isEmpty then none
        else
          some { protocol := String.mk (scheme.map Char.toLower) ++ ":"
                 hostname := String.mk (host.map Char.toLower) }
    | _ => none

/-- `validateResourceUrl(url, baseUrl)` (src/validation.ts lines
150–179): clamp a server-supplied resource URL to the trusted API
origin, degrading to `baseUrl + "/v1/chat/completions"` on hostname or
protocol mismatch and on any parse failure (of either argument). -/
def validateResourceUrl (url baseUrl : String) : String :=
  match parseUrl url, parseUrl baseUrl with
  | some parsed, some baseParsed =>
      if parsed.hostname ≠ baseParsed.hostname then baseUrl ++ "/v1/chat/completions"
      else if parsed.protocol ≠ baseParsed.protocol then baseUrl ++ "/v1/chat/completions"
      else url
  | _, _ => baseUrl ++ "/v1/chat/completions"

/-! ## Error Sanitizer — `sanitizeErrorResponse` (src/validation.ts)

The result type has exactly a `message` field and an optional `code`
field; `code : none` models both the absent key of the non-object branch
and the `code: undefined` of the object branch (observationally the
same through JSON serialisation). -/

structure SanitizedError where
  message : String
  code : Option String
  deriving Repr, DecidableEq

def genericErrorMsg : String := "API request failed"

/-- `sanitizeErrorResponse(errorBody)`: anything that is not a
JavaScript object (note: arrays and `null` have `typeof "object"`, but
`null` is explicitly excluded) maps to the generic message; from an
object only a string `error` (renamed `message`) and a string `code`
survive. -/
def sanitizeErrorResponse : JsVal → SanitizedError
  | .obj fields =>
      { message := match JsVal.lookupField fields "error" with
          | some (.str s) => s
          | _ => genericErrorMsg
        code := match JsVal.lookupField fields "code" with
          | some (.str s) => some s
          | _ => none }
  | .arr _ => { message := genericErrorMsg, code := none }
  | _ => { message := genericErrorMsg, code := none }

/-! ## EVM Payment Builder — `createPaymentPayload` (src/x402.ts)

`signTypedData` is an external signing primitive; it is passed in as a
total oracle `sigOf` and the arguments it is invoked with are part of
the result, so that theorems can speak about the domain actually used
for signing.  The wall clock (`Math.floor(Date.now() / 1000)`) and the
fresh random nonce of `createNonce()` are likewise parameters.  The
final `btoa(JSON.stringify(paymentData))` encoding step is left off the
model's result: nothing in the SDK decodes it, and the claims quantify
over the payload's fields. -/

def USDC_BASE : String := "0x833589fCD6eDb6E08f4c7C32D4f71b54bdA02913"
def BASE_CHAIN_ID : ℕ := 8453

structure EIP712Domain where
  name : String
  version : String
  chainId : ℕ
  verifyingContract : String
  deriving Repr, DecidableEq

/-- The fixed EIP-712 domain for Base USDC (src/x402.ts lines 16–21). -/
def USDC_DOMAIN : EIP712Domain :=
  { name := "USD Coin"
    version := "2"
    chainId := BASE_CHAIN_ID
    verifyingContract := USDC_BASE }

/-- The typed message of `TransferWithAuthorization` (`from` and `to` are Lean
keywords, rendered `fromAddr` / `toAddr`). -/
structure TransferAuthMessage where
  fromAddr : String
  toAddr : JsVal
  value : ℤ
  validAfter : ℤ
  validBefore : ℤ
  nonce : String
  deriving Repr

/-- Everything `signTypedData` is called with (key, domain, primary
type, message; the `types` table is a fixed constant). -/
structure SignTypedDataArgs where
  privateKey : String
  domain : EIP712Domain
  primaryType : String
  message : TransferAuthMessage
  deriving Repr

/-- `CreatePaymentOptions` (src/x402.ts).  `maxTimeoutSeconds`,
`resourceUrl` and `resourceDescription` are modelled at the interface's
declared types; `extra` is declared but never read by the builder. -/
structure CreatePaymentOptions where
  resourceUrl : Option String := none
  resourceDescription : Option String := none
  maxTimeoutSeconds : Option ℤ := none
  extra : JsVal := .undefined
  extensions : JsVal := .undefined

/-- JS `||`-defaulting on an optional string (the empty string is
falsy). -/
def jsOrStr (o : Option String) (d : String) : String :=
  match o with
  | some s => if s ≠ "" then s else d
  | none => d

/-- JS `||`-defaulting on an optional integer (zero is falsy). -/
def jsOrInt (o : Option ℤ) (d : ℤ) : ℤ :=
  match o with
  | some n => if n ≠ 0 then n else d
  | none => d

structure ResourceOut where
  url : String
  description : String
  mimeType : String
  deriving Repr, DecidableEq

structure ExtraOut where
  name : String
  version : String
  deriving Repr, DecidableEq

structure AcceptedOut where
  scheme : String
  network : JsVal
  amount : JsVal
  asset : String
  payTo : JsVal
  maxTimeoutSeconds : ℤ
  extra : ExtraOut
  deriving Repr

structure AuthorizationOut where
  fromAddr : String
  toAddr : JsVal
  value : JsVal
  validAfter : String
  validBefore : String
  nonce : String
  deriving Repr

structure PayloadOut where
  signature : String
  authorization : AuthorizationOut
  deriving Repr

structure PaymentData where
  x402Version : ℕ
  resource : ResourceOut
  accepted : AcceptedOut
  payload : PayloadOut
  extensions : JsVal
  deriving Repr

def defaultResourceUrl : String := "https://blockrun.ai/api/v1/chat/completions"

/-- `createPaymentPayload(privateKey, fromAddress, recipient, amount,
network, options)` (src/x402.ts lines 63–129).  `recipient`, `amount`
and `network` are declared `string` but arrive unvalidated from the
challenge, so they are modelled as runtime values; `BigInt(amount)`
throwing (`none`) aborts before the signer is invoked.  The result pairs
the signing arguments with the assembled payment data. -/
def createPaymentPayload (sigOf : SignTypedDataArgs → String) (now : ℤ) (nonce : String)
    (privateKey fromAddress : String) (recipient amount network : JsVal)
    (options : CreatePaymentOptions) : Option (SignTypedDataArgs × PaymentData) :=
  let validAfter := now - 600
  let validBefore := now + jsOrInt options.maxTimeoutSeconds 300
  match jsBigInt amount with
  | none => none
  | some value =>
    let args : SignTypedDataArgs :=
      { privateKey := privateKey
        domain := USDC_DOMAIN
        primaryType := "TransferWithAuthorization"
        message :=
          { fromAddr := fromAddress
            toAddr := recipient
            value := value
            validAfter := validAfter
            validBefore := validBefore
            nonce := nonce } }
    let signature := sigOf args
    some (args,
      { x402Version := 2
        resource :=
          { url := jsOrStr options.resourceUrl defaultResourceUrl
            description := jsOrStr options.resourceDescription "BlockRun AI API call"
            mimeType := "application/json" }
        accepted :=
          { scheme := "exact"
            network := network
            amount := amount
            asset := USDC_BASE
            payTo := recipient
            maxTimeoutSeconds := jsOrInt options.maxTimeoutSeconds 300
            extra := { name := "USD Coin", version := "2" } }
        payload :=
          { signature := signature
            authorization :=
              { fromAddr := fromAddress
                toAddr := recipient
                value := amount
                validAfter := toString validAfter
                validBefore := toString validBefore
                nonce := nonce } }
        extensions := options.extensions.jsOr (.obj []) })

/-! ## Payment-Retry Orchestrator — EVM (`LLMClient`, src/client.ts)

The HTTP transport is an oracle `responses : ℕ → HttpResponse` giving the
response to the n-th `fetch` the orchestrator issues for this logical
request (the first attempt is send 0, the payment retry send 1).  A
response body that is not valid JSON (the rejection of `response.json()`)
is `body := none`.  The trace records how many sends were issued and the
exact argument list of every `signTypedData` call. -/

structure HttpResponse where
  status : ℕ
  /-- the `payment-required` response header, when present -/
  paymentRequired : Option String := none
  /-- the parsed JSON body; `none` when `response.json()` rejects -/
  body : Option JsVal := none
  deriving Repr

/-- `Response.ok`: status in the inclusive range 200–299. -/
def HttpResponse.ok (r : HttpResponse) : Bool := 200 ≤ r.status ∧ r.status ≤ 299

/-- Session spend accumulator of one client instance
(`sessionTotalUsd`, `sessionCalls`); the float total is an `Option ℚ`
with `none` playing `NaN`. -/
structure SpendState where
  totalUsd : Option ℚ
  calls : ℕ
  deriving Repr, DecidableEq

def initialSpend : SpendState := { totalUsd := some 0, calls := 0 }

/-- Float addition lifted to the `NaN`-aware total. -/
def addUsd (t c : Option ℚ) : Option ℚ :=
  match t, c with
  | some a, some b => some (a + b)
  | _, _ => none

inductive ClientError : Type where
  /-- a thrown `PaymentError` with its message -/
  | paymentError (message : String)
  /-- a thrown `APIError` with message, HTTP status, sanitized body -/
  | apiError (message : String) (status : ℕ) (body : SanitizedError)
  /-- an error propagating out of `parsePaymentRequired` -/
  | challengeError (e : ChallengeError)
  /-- a runtime error propagating out of `extractPaymentDetails` (or a
  later unchecked property access) -/
  | runError (e : RunError)
  /-- `BigInt(amount)` threw inside `createPaymentPayload` -/
  | buildError
  /-- `response.json()` rejected on a 2xx response -/
  | jsonError
  deriving Repr, DecidableEq

/-- What a run of one logical request did: number of `fetch` calls to
the API, and the `signTypedData` invocations (EVM) in order. -/
structure EvmTrace where
  sends : ℕ
  signCalls : List SignTypedDataArgs
  deriving Repr

/-- `{ error: "Request failed" }`, the fallback body used when
`response.json()` rejects on an error response. -/
def requestFailedBody : JsVal := .obj [("error", .str "Request failed")]

/-- The 402 header-or-body challenge location logic shared by both
clients, parameterised by the body predicate (`respBody.x402 ||
respBody.accepts` for the EVM client, `respBody.accepts ||
respBody.x402Version` for the Solana client): a `TypeError` thrown by
the property accesses inside the `try` is swallowed. -/
def locateChallenge (keys : String × String) (response : HttpResponse) : Option String :=
  match response.paymentRequired with
  | some h => some h
  | none =>
      match response.body with
      | some respBody =>
          match respBody.getProp keys.1, respBody.getProp keys.2 with
          | .ok a, .ok b =>
              if (a.jsOr b).truthy then (stringifyVal respBody).map btoa else none
          | _, _ => none
      | none => none

def noChallengeMsg : String := "402 response but no payment requirements found"
def evmRejectedMsg : String := "Payment was rejected. Check your wallet balance."

/-- `new URL(x)` stringifies its argument; a non-string resource URL
produces text (`"undefined"`, `"[object Object]"`, …) that does not
parse as a URL, so it is modelled by a string that always fails the
guard's parser. -/
def urlArgString : JsVal → String
  | .str s => s
  | _ => ""

/-- A runtime value as an `Option String` where the interface declares a
string (used for `resourceDescription`; non-string truthy values are
not modelled beyond the default). -/
def jsStrOpt : JsVal → Option String
  | .str s => some s
  | _ => none

/-- A runtime value as an `Option ℤ` where the interface declares a
number (used for `maxTimeoutSeconds`). -/
def jsIntOpt : JsVal → Option ℤ
  | .num q => if q.den = 1 then some q.num else none
  | _ => none

/-- The options record the EVM client passes to `createPaymentPayload`
(src/client.ts lines 395–404). -/
def evmBuildOptions (apiUrl : String) (details : PaymentDetails) (extensions : JsVal) :
    CreatePaymentOptions :=
  { resourceUrl := some (validateResourceUrl
      (urlArgString ((details.resource.optProp "url").jsOr
        (.str (apiUrl ++ "/v1/chat/completions")))) apiUrl)
    resourceDescription :=
      jsStrOpt ((details.resource.optProp "description").jsOr (.str "BlockRun AI API call"))
    maxTimeoutSeconds := jsIntOpt (details.maxTimeoutSeconds.jsOr (.num 300))
    extra := details.extra
    extensions := extensions }

/-- `LLMClient.handlePaymentAndRetry` (src/client.ts lines 355–443):
locate and parse the challenge, extract the requirement, build and sign
the payment payload, re-issue the request once with the
`PAYMENT-SIGNATURE` header, classify the retry response, and update the
session spend on a 2xx retry. -/
def evmHandlePaymentAndRetry (sigOf : SignTypedDataArgs → String) (now : ℤ) (nonce : String)
    (privateKey fromAddress apiUrl : String)
    (response retryResponse : HttpResponse) (st : SpendState) :
    Except ClientError JsVal × SpendState × EvmTrace :=
  match locateChallenge ("x402", "accepts") response with
  | none => (.error (.paymentError noChallengeMsg), st, ⟨1, []⟩)
  | some paymentHeader =>
    match parsePaymentRequired paymentHeader with
    | .error e => (.error (.challengeError e), st, ⟨1, []⟩)
    | .ok paymentRequired =>
      match extractPaymentDetails paymentRequired none with
      | .error e => (.error (.runError e), st, ⟨1, []⟩)
      | .ok details =>
        match paymentRequired.getProp "extensions" with
        | .error () => (.error (.runError .typeError), st, ⟨1, []⟩)
        | .ok extensions =>
          match createPaymentPayload sigOf now nonce privateKey fromAddress
              details.recipient details.amount
              (details.network.jsOr (.str "eip155:8453"))
              (evmBuildOptions apiUrl details extensions) with
          | none => (.error .buildError, st, ⟨1, []⟩)
          | some (signArgs, _paymentData) =>
            if retryResponse.status = 402 then
              (.error (.paymentError evmRejectedMsg), st, ⟨2, [signArgs]⟩)
            else if ¬ retryResponse.ok then
              (.error (.apiError ("API error after payment: " ++ toString retryResponse.status)
                  retryResponse.status
                  (sanitizeErrorResponse (retryResponse.body.getD requestFailedBody))),
               st, ⟨2, [signArgs]⟩)
            else
              let costUsd := (jsParseFloat details.amount).map (fun q => q / 1000000)
              let st' : SpendState :=
                { totalUsd := addUsd st.totalUsd costUsd, calls := st.calls + 1 }
              match retryResponse.body with
              | some b => (.ok b, st', ⟨2, [signArgs]⟩)
              | none => (.error .jsonError, st', ⟨2, [signArgs]⟩)

/-- `LLMClient.requestWithPayment` (src/client.ts lines 316–350): first
unauthenticated attempt, 402 branch into the payment-retry handler,
non-402 error classification, 2xx success. -/
def evmRequestWithPayment (sigOf : SignTypedDataArgs → String) (now : ℤ) (nonce : String)
    (privateKey fromAddress apiUrl : String)
    (responses : ℕ → HttpResponse) (st : SpendState) :
    Except ClientError JsVal × SpendState × EvmTrace :=
  let response := responses 0
  if response.status = 402 then
    evmHandlePaymentAndRetry sigOf now nonce privateKey fromAddress apiUrl
      response (responses 1) st
  else if ¬ response.ok then
    (.error (.apiError ("API error: " ++ toString response.status) response.status
        (sanitizeErrorResponse (response.body.getD requestFailedBody))), st, ⟨1, []⟩)
  else
    match response.body with
    | some b => (.ok b, st, ⟨1, []⟩)
    | none => (.error .jsonError, st, ⟨1, []⟩)

/-! ## Payment-Retry Orchestrator — Solana (`SolanaLLMClient`,
src/solana-client.ts)

`createSolanaPaymentPayload` performs all RPC traffic of the Solana rail
(mint lookup, associated token accounts, latest blockhash); it is
modelled as a total oracle whose exact invocations are recorded in the
trace, so "no network call to the RPC endpoint" is "the builder was
never invoked".  `solanaPublicKey` (a local bs58 decode) is the
`pubKeyOf` oracle. -/

structure SolBuildArgs where
  privateKey : String
  fromAddress : String
  recipient : JsVal
  amount : JsVal
  feePayer : JsVal
  resourceUrl : String
  resourceDescription : Option String
  maxTimeoutSeconds : Option ℤ
  extra : JsVal
  extensions : JsVal
  rpcUrl : String
  deriving Repr

structure SolTrace where
  sends : ℕ
  builderCalls : List SolBuildArgs
  deriving Repr

def solRejectedMsg : String := "Payment was rejected. Check your Solana USDC balance."
def missingFeePayerMsg : String := "Missing feePayer in 402 extra field"

/-- Display form of a runtime value inside a template literal
(primitives are exact; the composite cases, which the SDK cannot reach
with a string-typed interpolation, are approximated). -/
def jsDisplay : JsVal → String
  | .undefined => "undefined"
  | .null => "null"
  | .bool b => cond b "true" "false"
  | .num q => stringifyNum q
  | .str s => s
  | .arr _ => ""
  | .obj _ => "[object Object]"

def wrongRailMsg (network : JsVal) : String :=
  "Expected Solana payment network, got: " ++ jsDisplay network ++
    ". Use LLMClient for Base payments."

/-- JS `String.prototype.startsWith(search)`: a plain prefix test
(embedded through character lists, which the kernel evaluates). -/
def jsStartsWith (s search : String) : Bool := List.isPrefixOf search.toList s.toList

/-- `SolanaLLMClient.handlePaymentAndRetry` (src/solana-client.ts lines
170–250): like the EVM variant, but with a Solana network preference,
the `solana:` rail check, the `feePayer` requirement, and the Solana
transaction builder.  `details.network?.startsWith("solana:")` throws a
`TypeError` when `network` is a non-string other than
`null`/`undefined`. -/
def solHandlePaymentAndRetry (builder : SolBuildArgs → String) (pubKeyOf : String → String)
    (privateKey apiUrl rpcUrl : String)
    (response retryResponse : HttpResponse) (st : SpendState) :
    Except ClientError JsVal × SpendState × SolTrace :=
  match locateChallenge ("accepts", "x402Version") response with
  | none => (.error (.paymentError noChallengeMsg), st, ⟨1, []⟩)
  | some paymentHeader =>
    match parsePaymentRequired paymentHeader with
    | .error e => (.error (.challengeError e), st, ⟨1, []⟩)
    | .ok paymentRequired =>
      match extractPaymentDetails paymentRequired (some SOLANA_NETWORK) with
      | .error e => (.error (.runError e), st, ⟨1, []⟩)
      | .ok details =>
        let railOk : Except RunError Bool :=
          match details.network with
          | .undefined => .ok false
          | .null => .ok false
          | .str s => .ok (jsStartsWith s "solana:")
          | _ => .error .typeError
        match railOk with
        | .error e => (.error (.runError e), st, ⟨1, []⟩)
        | .ok false => (.error (.paymentError (wrongRailMsg details.network)), st, ⟨1, []⟩)
        | .ok true =>
          let feePayer := details.extra.optProp "feePayer"
          if ¬ feePayer.truthy then
            (.error (.paymentError missingFeePayerMsg), st, ⟨1, []⟩)
          else
            let fromAddress := pubKeyOf privateKey
            match paymentRequired.getProp "extensions" with
            | .error () => (.error (.runError .typeError), st, ⟨1, []⟩)
            | .ok extensions =>
              let args : SolBuildArgs :=
                { privateKey := privateKey
                  fromAddress := fromAddress
                  recipient := details.recipient
                  amount := details.amount
                  feePayer := feePayer
                  resourceUrl := validateResourceUrl
                    (urlArgString ((details.resource.optProp "url").jsOr
                      (.str (apiUrl ++ "/v1/chat/completions")))) apiUrl
                  resourceDescription := jsStrOpt ((details.resource.optProp "description").jsOr
                    (.str "BlockRun Solana AI API call"))
                  maxTimeoutSeconds := jsIntOpt (details.maxTimeoutSeconds.jsOr (.num 300))
                  extra := details.extra
                  extensions := extensions
                  rpcUrl := rpcUrl }
              let _paymentPayload := builder args
              if retryResponse.status = 402 then
                (.error (.paymentError solRejectedMsg), st, ⟨2, [args]⟩)
              else if ¬ retryResponse.ok then
                (.error (.apiError ("API error after payment: " ++ toString retryResponse.status)
                    retryResponse.status
                    (sanitizeErrorResponse (retryResponse.body.getD requestFailedBody))),
                 st, ⟨2, [args]⟩)
              else
                let costUsd := (jsParseFloat details.amount).map (fun q => q / 1000000)
                let st' : SpendState :=
                  { totalUsd := addUsd st.totalUsd costUsd, calls := st.calls + 1 }
                match retryResponse.body with
                | some b => (.ok b, st', ⟨2, [args]⟩)
                | none => (.error .jsonError, st', ⟨2, [args]⟩)

/-- `SolanaLLMClient.requestWithPayment` (src/solana-client.ts lines
146–168). -/
def solRequestWithPayment (builder : SolBuildArgs → String) (pubKeyOf : String → String)
    (privateKey apiUrl rpcUrl : String)
    (responses : ℕ → HttpResponse) (st : SpendState) :
    Except ClientError JsVal × SpendState × SolTrace :=
  let response := responses 0
  if response.status = 402 then
    solHandlePaymentAndRetry builder pubKeyOf privateKey apiUrl rpcUrl
      response (responses 1) st
  else if ¬ response.ok then
    (.error (.apiError ("API error: " ++ toString response.status) response.status
        (sanitizeErrorResponse (response.body.getD requestFailedBody))), st, ⟨1, []⟩)
  else
    match response.body with
    | some b => (.ok b, st, ⟨1, []⟩)
    | none => (.error .jsonError, st, ⟨1, []⟩)


/-! # Theorems -/

/-- The two error kinds of `parsePaymentRequired`, with the user-visible
messages the source attaches to them (the `catch` block tells them apart
by exactly this message text). -/
def challengeErrorMessage : ChallengeError → String
  | .parseError => "Failed to parse payment required header: invalid format"
  | .structureError => "Invalid payment required structure: missing or invalid \x27accepts\x27 field"

/-- Claim C3 (counterexample): the claim says decoding fails whenever the
decoded object\x27s `accepts` field is an *empty* array, but
`parsePaymentRequired` accepts the base64 encoding of
`\x7b"accepts":[]\x7d`: an empty array is truthy and is an array, so the
structural check passes and the parse succeeds. -/
theorem parsePaymentRequired_empty_accepts_ok :
    parsePaymentRequired (btoa ((stringifyVal (.obj [("accepts", .arr [])])).getD "")) =
      .ok (.obj [("accepts", JsVal.arr [])]) := rfl

/-- Claim C3 (amended): `parsePaymentRequired` fails with the parse-kind
error exactly when base64 decoding fails, when the decoded text is not
valid JSON, or when reading `accepts` off the parsed root throws (a
`null` root); it fails with the distinguishable structure-kind error
when the `accepts` field is falsy (missing, `null`, `0`, `""`, `false`)
or not an array; and it succeeds — empty array included — whenever
`accepts` is a truthy array. -/
theorem parsePaymentRequired_error_kinds :
    ∀ s : String,
      (atob s = none → parsePaymentRequired s = .error .parseError) ∧
      (∀ d, atob s = some d → jsonParse d = none →
        parsePaymentRequired s = .error .parseError) ∧
      (∀ d p, atob s = some d → jsonParse d = some p → p.getProp "accepts" = .error () →
        parsePaymentRequired s = .error .parseError) ∧
      (∀ d p a, atob s = some d → jsonParse d = some p → p.getProp "accepts" = .ok a →
        (a.truthy = false ∨ a.isArray = false) →
        parsePaymentRequired s = .error .structureError) ∧
      (∀ d p a, atob s = some d → jsonParse d = some p → p.getProp "accepts" = .ok a →
        a.truthy = true → a.isArray = true → parsePaymentRequired s = .ok p) ∧
      challengeErrorMessage .parseError ≠ challengeErrorMessage .structureError := by
  intro s
  refine ⟨fun h => by simp [parsePaymentRequired, h],
          fun d hd hj => by simp [parsePaymentRequired, hd, hj],
          fun d p hd hj ha => by simp [parsePaymentRequired, hd, hj, ha],
          fun d p a hd hj ha hcase => ?_,
          fun d p a hd hj ha ht hA => by
            simp [parsePaymentRequired, hd, hj, ha, ht, hA],
          by decide⟩
  rcases hcase with h | h <;> simp [parsePaymentRequired, hd, hj, ha, h]

/-- Witness for the C3 theorem: each branch exercised on a concrete
header (bad base64; non-JSON text; missing `accepts`; a string
`accepts`; a `null` JSON root). -/
theorem parsePaymentRequired_error_kinds_witness :
    parsePaymentRequired "!!!" = .error .parseError ∧
    parsePaymentRequired (btoa "not json") = .error .parseError ∧
    parsePaymentRequired (btoa ((stringifyVal (.obj [("x402Version", .num 2)])).getD "")) =
      .error .structureError ∧
    parsePaymentRequired (btoa ((stringifyVal (.obj [("accepts", .str "nope")])).getD "")) =
      .error .structureError ∧
    parsePaymentRequired (btoa ((stringifyVal .null).getD "")) = .error .parseError :=
  ⟨(parsePaymentRequired_error_kinds "!!!").1 rfl,
   (parsePaymentRequired_error_kinds _).2.1 _ rfl rfl,
   (parsePaymentRequired_error_kinds _).2.2.2.1 _ _ _ rfl rfl rfl (Or.inl rfl),
   (parsePaymentRequired_error_kinds _).2.2.2.1 _ _ _ rfl rfl rfl (Or.inr rfl),
   (parsePaymentRequired_error_kinds _).2.2.1 _ _ rfl rfl rfl⟩

/-- Claim C6: the Resource-URL Guard returns the safe default endpoint
(`baseUrl + "/v1/chat/completions"`) for every server URL that fails to
parse and for every parsed URL whose hostname or protocol differs from
the trusted base URL\x27s, and passes a matching URL through unchanged;
the function is total (mismatches degrade, they never throw). -/
theorem validateResourceUrl_guard :
    ∀ url baseUrl : String,
      (parseUrl url = none →
        validateResourceUrl url baseUrl = baseUrl ++ "/v1/chat/completions") ∧
      (∀ u b, parseUrl url = some u → parseUrl baseUrl = some b →
        (u.hostname ≠ b.hostname ∨ u.protocol ≠ b.protocol) →
        validateResourceUrl url baseUrl = baseUrl ++ "/v1/chat/completions") ∧
      (∀ u b, parseUrl url = some u → parseUrl baseUrl = some b →
        u.hostname = b.hostname → u.protocol = b.protocol →
        validateResourceUrl url baseUrl = url) := by
  intro url baseUrl
  refine ⟨fun h => by simp [validateResourceUrl, h],
          fun u b hu hb hne => ?_,
          fun u b hu hb hh hp => by simp [validateResourceUrl, hu, hb, hh, hp]⟩
  rcases hne with h | h <;> simp [validateResourceUrl, hu, hb, h]

/-- Witness for the C6 theorem: the spec\x27s own example —
`validateResourceUrl("https://evil.example/x", "https://api.example")`
degrades to the default, and a matching-host URL passes through. -/
theorem validateResourceUrl_guard_witness :
    validateResourceUrl "https://evil.example/x" "https://api.example" =
      "https://api.example" ++ "/v1/chat/completions" ∧
    validateResourceUrl "https://blockrun.ai/api/v1/chat" "https://blockrun.ai/api" =
      "https://blockrun.ai/api/v1/chat" :=
  ⟨(validateResourceUrl_guard "https://evil.example/x" "https://api.example").2.1
      ⟨"https:", "evil.example"⟩ ⟨"https:", "api.example"⟩ rfl rfl
      (Or.inl (by decide)),
   (validateResourceUrl_guard "https://blockrun.ai/api/v1/chat" "https://blockrun.ai/api").2.2
      ⟨"https:", "blockrun.ai"⟩ ⟨"https:", "blockrun.ai"⟩ rfl rfl rfl rfl⟩

/-- Claim C10: the error sanitizer maps every non-object to the fixed
generic record; on an object it keeps exactly a `message` (the string
`error` field, else the generic text) and a `code` present precisely
when the input\x27s `code` is a string — so no other input key, `secret`
included, survives, as the spec\x27s concrete example shows. -/
theorem sanitizeErrorResponse_allowlist :
    (∀ v : JsVal, (∀ fields, v ≠ .obj fields) →
      sanitizeErrorResponse v = ⟨genericErrorMsg, none⟩) ∧
    (∀ fields,
      (∀ s, JsVal.lookupField fields "error" = some (.str s) →
        (sanitizeErrorResponse (.obj fields)).message = s) ∧
      ((∀ s, JsVal.lookupField fields "error" ≠ some (.str s)) →
        (sanitizeErrorResponse (.obj fields)).message = genericErrorMsg) ∧
      (∀ c, (sanitizeErrorResponse (.obj fields)).code = some c ↔
        JsVal.lookupField fields "code" = some (.str c))) ∧
    sanitizeErrorResponse (.obj [("error", .str "bad request"), ("code", .str "e1"),
      ("secret", .str "sk_live_x")]) = ⟨"bad request", some "e1"⟩ := by
  refine ⟨fun v hv => ?_, fun fields => ⟨fun s hs => ?_, fun hno => ?_, fun c => ?_⟩, rfl⟩
  · cases v <;> first | rfl | exact absurd rfl (hv _)
  · simp [sanitizeErrorResponse, hs]
  · rcases h : JsVal.lookupField fields "error" with _ | w
    · simp [sanitizeErrorResponse, h]
    · cases w <;> simp [sanitizeErrorResponse, h]
      exact absurd h (hno _)
  · rcases h : JsVal.lookupField fields "code" with _ | w
    · simp [sanitizeErrorResponse, h]
    · cases w <;> simp [sanitizeErrorResponse, h]

/-- Witness for the C10 theorem: a number input gives the generic
record; on a concrete object the `code` iff-characterisation holds in
both directions. -/
theorem sanitizeErrorResponse_allowlist_witness :
    sanitizeErrorResponse (.num 5) = ⟨genericErrorMsg, none⟩ ∧
    (sanitizeErrorResponse (.obj [("error", .str "bad"), ("code", .str "e9")])).code =
      some "e9" :=
  ⟨sanitizeErrorResponse_allowlist.1 (.num 5) (fun _ h => JsVal.noConfusion h),
   (sanitizeErrorResponse_allowlist.2.1 [("error", .str "bad"), ("code", .str "e9")]).2.2
      "e9" |>.mpr rfl⟩

/-- A successful property access means the receiver was not nullish and
the value is the optional-chaining one. -/
lemma getProp_ok (v : JsVal) (k : String) (w : JsVal) (h : v.getProp k = .ok w) :
    v.isNullish = false ∧ v.optProp k = w := by
  cases v <;> simp_all [JsVal.getProp, JsVal.optProp, JsVal.isNullish]

/-- On a non-nullish receiver every property access succeeds with the
optional-chaining value. -/
lemma getProp_of_not_nullish (v : JsVal) (hv : v.isNullish = false) (k : String) :
    v.getProp k = .ok (v.optProp k) := by
  cases v <;> simp_all [JsVal.getProp, JsVal.optProp, JsVal.isNullish]

/-- `accepts.find` skips every leading entry whose `network` is not the
preferred string (and whose access does not throw). -/
lemma findByNetwork_skip (pref : String) (pre rest : List JsVal) (o : JsVal)
    (hpre : ∀ e ∈ pre, ∃ nv, e.getProp "network" = .ok nv ∧ nv ≠ .str pref) :
    findByNetwork pref (pre ++ o :: rest) = findByNetwork pref (o :: rest) := by
  induction pre with
  | nil => rfl
  | cons e es ih =>
      obtain ⟨nv, hok, hne⟩ := hpre e (List.mem_cons_self e es)
      have hrec := ih (fun x hx => hpre x (List.mem_cons_of_mem e hx))
      cases nv with
      | str t =>
          have ht : t ≠ pref := fun h => hne (by rw [h])
          simpa [findByNetwork, hok, ht] using hrec
      | undefined => simpa [findByNetwork, hok] using hrec
      | null => simpa [findByNetwork, hok] using hrec
      | bool b => simpa [findByNetwork, hok] using hrec
      | num q => simpa [findByNetwork, hok] using hrec
      | arr l => simpa [findByNetwork, hok] using hrec
      | obj l => simpa [findByNetwork, hok] using hrec

/-- `accepts.find` returns the entry at the head when its `network`
matches the preferred string. -/
lemma findByNetwork_found (pref : String) (o : JsVal) (rest : List JsVal)
    (ho : o.getProp "network" = .ok (.str pref)) :
    findByNetwork pref (o :: rest) = .ok (some o) := by
  simp [findByNetwork, ho]

/-- Claim C5: requirement selection in `extractPaymentDetails`.  With a
challenge whose `accepts` is an array: an empty array fails with the
NoPaymentOption error; with a preferred network, the first entry whose
`network` equals it exactly is the one extracted; with no preference, or
when no entry matches, `accepts[0]` is extracted; the amount is
`amount || maxAmountRequired` and a falsy result fails with the
NoPaymentOption-kind error; `maxTimeoutSeconds` falls back to 300 when
absent (or otherwise falsy). -/
theorem extractPaymentDetails_selection :
    ∀ (pr : JsVal) (accepts : List JsVal),
      pr.getProp "accepts" = .ok (.arr accepts) →
      ((accepts = [] → ∀ po,
          extractPaymentDetails pr po = .error (.jsError noPaymentOptionsMsg)) ∧
       (∀ pre o rest pref, accepts = pre ++ o :: rest →
          (∀ e ∈ pre, ∃ nv, e.getProp "network" = .ok nv ∧ nv ≠ .str pref) →
          o.getProp "network" = .ok (.str pref) →
          extractPaymentDetails pr (some pref) = extractFromOption pr o) ∧
       (∀ o rest, accepts = o :: rest →
          extractPaymentDetails pr none = extractFromOption pr o) ∧
       (∀ o rest pref, accepts = o :: rest →
          findByNetwork pref accepts = .ok none →
          extractPaymentDetails pr (some pref) = extractFromOption pr o) ∧
       (∀ o a ma, o.getProp "amount" = .ok a → o.getProp "maxAmountRequired" = .ok ma →
          (a.jsOr ma).truthy = false →
          extractFromOption pr o = .error (.jsError noAmountMsg)) ∧
       (∀ o d, extractFromOption pr o = .ok d →
          (∃ a ma, o.getProp "amount" = .ok a ∧ o.getProp "maxAmountRequired" = .ok ma ∧
             d.amount = a.jsOr ma ∧ d.amount.truthy = true) ∧
          (∃ mts, o.getProp "maxTimeoutSeconds" = .ok mts ∧
             d.maxTimeoutSeconds = mts.jsOr (.num 300)))) := by
  intro pr accepts hacc
  obtain ⟨hnn, hopt⟩ := getProp_ok pr "accepts" (.arr accepts) hacc
  refine ⟨?_, ?_, ?_, ?_, ?_, ?_⟩
  · rintro rfl po
    simp [extractPaymentDetails, hnn, hopt, JsVal.jsOr, JsVal.truthy]
  · rintro pre o rest pref rfl hpre ho
    have hfind := findByNetwork_skip pref pre rest o hpre
    rw [findByNetwork_found pref o rest ho] at hfind
    simp [extractPaymentDetails, hnn, hopt, JsVal.jsOr, JsVal.truthy, hfind]
  · rintro o rest rfl
    simp [extractPaymentDetails, hnn, hopt, JsVal.jsOr, JsVal.truthy]
  · rintro o rest pref rfl hfind
    simp [extractPaymentDetails, hnn, hopt, JsVal.jsOr, JsVal.truthy, hfind]
  · intro o a ma ha hma htr
    obtain ⟨honn, hoa⟩ := getProp_ok o "amount" a ha
    obtain ⟨_, homa⟩ := getProp_ok o "maxAmountRequired" ma hma
    simp [extractFromOption, honn, hoa, homa, htr]
  · intro o d hd
    simp only [extractFromOption] at hd
    rcases honn : o.isNullish with _ | _
    · rcases htr : ((o.optProp "amount").jsOr (o.optProp "maxAmountRequired")).truthy
        with _ | _
      · rw [honn] at hd; simp [htr] at hd
      · rcases hpnn : pr.isNullish with _ | _
        · rw [honn] at hd
          simp [htr, hpnn] at hd
          subst hd
          exact ⟨⟨o.optProp "amount", o.optProp "maxAmountRequired",
                  getProp_of_not_nullish o honn "amount",
                  getProp_of_not_nullish o honn "maxAmountRequired", rfl, htr⟩,
                 o.optProp "maxTimeoutSeconds",
                 getProp_of_not_nullish o honn "maxTimeoutSeconds", rfl⟩
        · rw [honn] at hd; simp [htr, hpnn] at hd
    · rw [honn] at hd; simp at hd

/-- Fixture: a Base (EVM) payment option. -/
def fixBaseOpt : JsVal :=
  .obj [("network", .str "eip155:8453"), ("amount", .str "1000000"),
        ("payTo", .str "0xRcpt")]

/-- Fixture: a Solana payment option with a fee payer. -/
def fixSolOpt : JsVal :=
  .obj [("network", .str SOLANA_NETWORK), ("amount", .str "2000000"),
        ("payTo", .str "SolRcpt"),
        ("extra", .obj [("feePayer", .str "FeePayerAddr11111111111111111111111111111111")])]

/-- Fixture: a dual-rail challenge offering Base first and Solana
second. -/
def fixDualChal : JsVal :=
  .obj [("x402Version", .num 2), ("accepts", .arr [fixBaseOpt, fixSolOpt])]

/-- Witness for the C5 theorem: on the dual-rail challenge, preferring
the Solana network selects the second entry, and no preference selects
`accepts[0]`. -/
theorem extractPaymentDetails_selection_witness :
    extractPaymentDetails fixDualChal (some SOLANA_NETWORK) =
      extractFromOption fixDualChal fixSolOpt ∧
    extractPaymentDetails fixDualChal none = extractFromOption fixDualChal fixBaseOpt := by
  refine ⟨(extractPaymentDetails_selection fixDualChal [fixBaseOpt, fixSolOpt] rfl).2.1
            [fixBaseOpt] fixSolOpt [] SOLANA_NETWORK rfl ?_ rfl,
          (extractPaymentDetails_selection fixDualChal [fixBaseOpt, fixSolOpt] rfl).2.2.1
            fixBaseOpt [fixSolOpt] rfl⟩
  intro e he
  simp only [List.mem_singleton] at he
  subst he
  refine ⟨.str "eip155:8453", rfl, fun h => ?_⟩
  injection h with h2
  exact absurd h2 (by decide)

/-- Fixture: `createPaymentPayload` called with no options (all
defaults). -/
def emptyOptions : CreatePaymentOptions := {}

/-- Claim C2: the EIP-712 domain used for signing is the fixed
`USDC_DOMAIN` constant for every input — in particular it is never a
function of the challenge, so any two challenges (for example two that
differ only in the server-supplied `extra` token name/version of the
selected requirement) are signed under the identical domain
(name "USD Coin", version "2", chainId 8453, verifyingContract
`USDC_BASE`). -/
theorem createPaymentPayload_domain_fixed :
    (∀ sigOf now nonce pk fromAddr recipient amount network opts r,
      createPaymentPayload sigOf now nonce pk fromAddr recipient amount network opts =
        some r → r.1.domain = USDC_DOMAIN) ∧
    (∀ sigOf now nonce pk fromAddr recipient amount network opts
       sigOf2 now2 nonce2 pk2 fromAddr2 recipient2 amount2 network2 opts2 r r2,
      createPaymentPayload sigOf now nonce pk fromAddr recipient amount network opts =
        some r →
      createPaymentPayload sigOf2 now2 nonce2 pk2 fromAddr2 recipient2 amount2 network2
        opts2 = some r2 →
      r.1.domain = r2.1.domain) := by
  have key : ∀ sigOf now nonce pk fromAddr recipient amount network opts r,
      createPaymentPayload sigOf now nonce pk fromAddr recipient amount network opts =
        some r → r.1.domain = USDC_DOMAIN := by
    intro sigOf now nonce pk fromAddr recipient amount network opts r h
    rcases hb : jsBigInt amount with _ | v
    · simp [createPaymentPayload, hb] at h
    · simp [createPaymentPayload, hb] at h
      subst h
      rfl
  exact ⟨key, fun sigOf now nonce pk fromAddr recipient amount network opts
      sigOf2 now2 nonce2 pk2 fromAddr2 recipient2 amount2 network2 opts2 r r2 h h2 => by
    rw [key _ _ _ _ _ _ _ _ _ _ h, key _ _ _ _ _ _ _ _ _ _ h2]⟩

/-- Fixture: a concrete EVM build with the default options. -/
def fixBuildDefault : Option (SignTypedDataArgs × PaymentData) :=
  createPaymentPayload (fun _ => "0xsig") 1000 "0xnonce" "0xpk" "0xFrom"
    (.str "0xRcpt") (.str "1000000") (.str "eip155:8453") emptyOptions

/-- Witness for the C2 theorem: the concrete default build signs under
`USDC_DOMAIN`. -/
theorem createPaymentPayload_domain_fixed_witness :
    fixBuildDefault.map (fun r => r.1.domain) = some USDC_DOMAIN := by
  cases hc : fixBuildDefault with
  | none =>
      have hs : fixBuildDefault.isSome = true := rfl
      rw [hc] at hs
      exact Bool.noConfusion hs
  | some r =>
      simp [createPaymentPayload_domain_fixed.1 _ _ _ _ _ _ _ _ _ _ hc]

/-- Fixture: a requirement whose `scheme` and `asset` differ from the
builder constants. -/
def fixEvilReq : JsVal :=
  .obj [("scheme", .str "weird-scheme"), ("network", .str "eip155:8453"),
        ("amount", .str "5000"), ("asset", .str "0xEvilToken"),
        ("payTo", .str "0xRcpt"), ("maxTimeoutSeconds", .num 60)]

/-- Fixture: a challenge carrying only `fixEvilReq`. -/
def fixEvilChal : JsVal :=
  .obj [("x402Version", .num 2), ("accepts", .arr [fixEvilReq])]

/-- Claim C4 (counterexample): the `accepted` object is *not* echoed
field-for-field from the selected requirement: for a requirement with
`scheme "weird-scheme"` and `asset "0xEvilToken"`, the payload built
through the client pipeline carries `scheme "exact"` and the `USDC_BASE`
asset — both hard-coded, not the requirement\x27s values. -/
theorem createPaymentPayload_echo_counterexample :
    ((extractPaymentDetails fixEvilChal none).map (fun d =>
        (createPaymentPayload (fun _ => "0xsig") 1000 "0xnonce" "0xpk" "0xFrom"
            d.recipient d.amount (d.network.jsOr (.str "eip155:8453"))
            (evmBuildOptions "https://blockrun.ai/api" d (.obj []))).map
          (fun r => (r.2.accepted.scheme, r.2.accepted.asset)))) =
      .ok (some ("exact", USDC_BASE)) ∧
    fixEvilReq.getProp "scheme" = .ok (.str "weird-scheme") ∧
    fixEvilReq.getProp "asset" = .ok (.str "0xEvilToken") ∧
    ("exact" : String) ≠ "weird-scheme" ∧ USDC_BASE ≠ "0xEvilToken" :=
  ⟨rfl, rfl, rfl, by decide, by decide⟩

/-- Claim C4 (amended): the `accepted` object of every built payload
echoes the `network`, `amount` and `payTo` arguments (which the client
takes from the selected requirement) and the effective timeout
(`maxTimeoutSeconds || 300`), while `scheme`, `asset` and `extra` are
the hard-coded constants `"exact"`, `USDC_BASE` and
name "USD Coin" / version "2", independent of the requirement. -/
theorem createPaymentPayload_accepted_fields :
    ∀ sigOf now nonce pk fromAddr recipient amount network opts r,
      createPaymentPayload sigOf now nonce pk fromAddr recipient amount network opts =
        some r →
      r.2.accepted.scheme = "exact" ∧
      r.2.accepted.asset = USDC_BASE ∧
      r.2.accepted.extra = { name := "USD Coin", version := "2" } ∧
      r.2.accepted.network = network ∧
      r.2.accepted.amount = amount ∧
      r.2.accepted.payTo = recipient ∧
      r.2.accepted.maxTimeoutSeconds = jsOrInt opts.maxTimeoutSeconds 300 := by
  intro sigOf now nonce pk fromAddr recipient amount network opts r h
  rcases hb : jsBigInt amount with _ | v
  · simp [createPaymentPayload, hb] at h
  · simp [createPaymentPayload, hb] at h
    subst h
    exact ⟨rfl, rfl, rfl, rfl, rfl, rfl, rfl⟩

/-- Fixture: a concrete EVM build with a 60-second timeout. -/
def fixBuildTimeout60 : Option (SignTypedDataArgs × PaymentData) :=
  createPaymentPayload (fun _ => "0xsig") 1000 "0xnonceC" "0xpk" "0xFrom"
    (.str "0xRcpt") (.str "5000") (.str "eip155:8453")
    { maxTimeoutSeconds := some 60 }

/-- Witness for the amended C4 theorem at a concrete build. -/
theorem createPaymentPayload_accepted_fields_witness :
    fixBuildTimeout60.map (fun r =>
        (r.2.accepted.scheme, r.2.accepted.asset, r.2.accepted.payTo,
         r.2.accepted.maxTimeoutSeconds)) =
      some ("exact", USDC_BASE, .str "0xRcpt", 60) := by
  cases hc : fixBuildTimeout60 with
  | none =>
      have hs : fixBuildTimeout60.isSome = true := rfl
      rw [hc] at hs
      exact Bool.noConfusion hs
  | some r =>
      obtain ⟨h1, h2, _, _, _, h6, h7⟩ :=
        createPaymentPayload_accepted_fields _ _ _ _ _ _ _ _ _ _ hc
      simp [h1, h2, h6, h7, jsOrInt]

/-- Claim C9 (counterexample): with a (server-controllable) negative
timeout the claimed inequality `now < validBefore` fails: at
`now = 1000` and `maxTimeoutSeconds = -1` the built payload has
`validBefore = 999 < now`. -/
theorem createPaymentPayload_negative_timeout :
    ((createPaymentPayload (fun _ => "0xsig") 1000 "0xnonceD" "0xpk" "0xFrom"
        (.str "0xRcpt") (.str "1000000") (.str "eip155:8453")
        { maxTimeoutSeconds := some (-1) }).map
      (fun r => r.1.message.validBefore)) = some 999 ∧ ¬ ((1000 : ℤ) < 999) :=
  ⟨rfl, by decide⟩

/-- Claim C9 (amended): every built payload has exactly
`validAfter = now − 600` and
`validBefore = now + (maxTimeoutSeconds || 300)` (equalities, no
tolerance needed in the idealised clock), hence `validAfter < now`
always, `validBefore − now` equals the effective timeout exactly, and
`now < validBefore` whenever the supplied timeout is non-negative or
absent; only a negative server-supplied timeout falsifies the
inequality. -/
theorem createPaymentPayload_time_window :
    ∀ sigOf now nonce pk fromAddr recipient amount network opts r,
      createPaymentPayload sigOf now nonce pk fromAddr recipient amount network opts =
        some r →
      r.1.message.validAfter = now - 600 ∧
      r.1.message.validBefore = now + jsOrInt opts.maxTimeoutSeconds 300 ∧
      r.2.payload.authorization.validAfter = toString (now - 600) ∧
      r.2.payload.authorization.validBefore =
        toString (now + jsOrInt opts.maxTimeoutSeconds 300) ∧
      r.1.message.validAfter < now ∧
      r.1.message.validBefore - now = jsOrInt opts.maxTimeoutSeconds 300 ∧
      (∀ t, opts.maxTimeoutSeconds = some t → 0 ≤ t → now < r.1.message.validBefore) ∧
      (opts.maxTimeoutSeconds = none → now < r.1.message.validBefore) := by
  intro sigOf now nonce pk fromAddr recipient amount network opts r h
  rcases hb : jsBigInt amount with _ | v
  · simp [createPaymentPayload, hb] at h
  · simp [createPaymentPayload, hb] at h
    subst h
    refine ⟨rfl, rfl, rfl, rfl, by show now - 600 < now; omega,
      by show now + jsOrInt opts.maxTimeoutSeconds 300 - now =
           jsOrInt opts.maxTimeoutSeconds 300
         omega, ?_, ?_⟩
    · intro t ht h0
      show now < now + jsOrInt opts.maxTimeoutSeconds 300
      rw [ht]
      rcases eq_or_ne t 0 with rfl | hne
      · simp only [jsOrInt, ne_eq, not_true_eq_false, ite_eq_right_iff, if_false]
        omega
      · simp only [jsOrInt, ne_eq, hne, not_false_eq_true, if_pos]
        omega
    · intro ht
      show now < now + jsOrInt opts.maxTimeoutSeconds 300
      rw [ht]
      show now < now + 300
      omega

/-- Witness for the amended C9 theorem: a concrete build with the
default timeout gives the window `(400, 1300)` around `now = 1000`. -/
theorem createPaymentPayload_time_window_witness :
    (fixBuildDefault.map (fun r => (r.1.message.validAfter, r.1.message.validBefore))) =
      some (400, 1300) ∧ ((400 : ℤ) < 1000 ∧ (1000 : ℤ) < 1300) := by
  refine ⟨?_, by decide, by decide⟩
  cases hc : fixBuildDefault with
  | none =>
      have hs : fixBuildDefault.isSome = true := rfl
      rw [hc] at hs
      exact Bool.noConfusion hs
  | some r =>
      obtain ⟨h1, h2, _⟩ :=
        createPaymentPayload_time_window _ _ _ _ _ _ _ _ _ _ hc
      simp [h1, h2, jsOrInt, emptyOptions]
/-! ## Orchestrator fixtures -/

/-- Fixture: signing oracle. -/
def sigOfFix : SignTypedDataArgs → String := fun _ => "0xsignature"

/-- Fixture: Solana transaction-builder oracle. -/
def solBuilderFix : SolBuildArgs → String := fun _ => "base64tx"

/-- Fixture: Solana public-key oracle. -/
def pubKeyOfFix : String → String := fun _ => "SolPubKey1111111111111111111111111111111111"

/-- Fixture: a Solana-only challenge. -/
def fixSolChal : JsVal := .obj [("x402Version", .num 2), ("accepts", .arr [fixSolOpt])]

/-- Fixture: a Solana option with an `extra` object lacking `feePayer`. -/
def fixSolOptNoFee : JsVal :=
  .obj [("network", .str SOLANA_NETWORK), ("amount", .str "2000000"),
        ("payTo", .str "SolRcpt"), ("extra", .obj [])]

/-- Fixture: a Solana challenge whose requirement lacks a fee payer. -/
def fixSolNoFeeChal : JsVal :=
  .obj [("x402Version", .num 2), ("accepts", .arr [fixSolOptNoFee])]

/-- Fixture: the dual-rail challenge as a `payment-required` header. -/
def fixEvmHeader : String := btoa ((stringifyVal fixDualChal).getD "")

/-- Fixture: the Solana challenge as a `payment-required` header. -/
def fixSolHeader : String := btoa ((stringifyVal fixSolChal).getD "")

/-- Fixture: the fee-payer-less Solana challenge as a header. -/
def fixSolNoFeeHeader : String := btoa ((stringifyVal fixSolNoFeeChal).getD "")

/-- Fixture: a 402 carrying the dual-rail challenge header. -/
def resp402Evm : HttpResponse := { status := 402, paymentRequired := some fixEvmHeader }

/-- Fixture: a 402 carrying the Solana challenge header. -/
def resp402Sol : HttpResponse := { status := 402, paymentRequired := some fixSolHeader }

/-- Fixture: a 402 carrying the fee-payer-less Solana header. -/
def resp402SolNoFee : HttpResponse :=
  { status := 402, paymentRequired := some fixSolNoFeeHeader }

/-- Fixture: a bare 402 with no challenge. -/
def resp402Bare : HttpResponse := { status := 402 }

/-- Fixture: a 200 with a JSON body. -/
def resp200Ok : HttpResponse := { status := 200, body := some (.obj [("id", .str "chatcmpl-1")]) }

/-- Fixture: a 200 whose body fails to parse as JSON. -/
def resp200BadJson : HttpResponse := { status := 200, body := none }

/-- Fixture: response oracle answering `a` to the first send and `b` to
every later one. -/
def seqTwo (a b : HttpResponse) : ℕ → HttpResponse := fun n => if n = 0 then a else b

/-! ## Orchestrator theorems -/

set_option maxHeartbeats 1000000 in
/-- Per-run bound for the EVM orchestrator: at most two API sends, at
most one signing call, and a 402 on the issued retry yields the
`PaymentError`. -/
lemma evm_run_bound (sigOf : SignTypedDataArgs → String) (now : ℤ)
    (nonce pk fromAddr apiUrl : String)
    (responses : ℕ → HttpResponse) (st : SpendState) :
    (evmRequestWithPayment sigOf now nonce pk fromAddr apiUrl responses st).2.2.sends ≤ 2 ∧
    (evmRequestWithPayment sigOf now nonce
        pk fromAddr apiUrl responses st).2.2.signCalls.length ≤ 1 ∧
    ((evmRequestWithPayment sigOf now nonce pk fromAddr apiUrl responses st).2.2.sends = 2 →
      (responses 1).status = 402 →
      (evmRequestWithPayment sigOf now nonce pk fromAddr apiUrl responses st).1 =
        .error (.paymentError evmRejectedMsg)) := by
  unfold evmRequestWithPayment evmHandlePaymentAndRetry
  repeat' split <;> try simp_all

set_option maxHeartbeats 1000000 in
/-- Per-run bound for the Solana orchestrator. -/
lemma sol_run_bound (builder : SolBuildArgs → String) (pubKeyOf : String → String)
    (pk apiUrl rpcUrl : String) (responses : ℕ → HttpResponse) (st : SpendState) :
    (solRequestWithPayment builder pubKeyOf pk apiUrl rpcUrl responses st).2.2.sends ≤ 2 ∧
    (solRequestWithPayment builder pubKeyOf pk apiUrl
        rpcUrl responses st).2.2.builderCalls.length ≤ 1 ∧
    ((solRequestWithPayment builder pubKeyOf pk apiUrl rpcUrl responses st).2.2.sends = 2 →
      (responses 1).status = 402 →
      (solRequestWithPayment builder pubKeyOf pk apiUrl rpcUrl responses st).1 =
        .error (.paymentError solRejectedMsg)) := by
  unfold solRequestWithPayment solHandlePaymentAndRetry
  repeat' split <;> try simp_all

/-- Claim C1: per call to the payment-retry operation, both orchestrator
variants issue at most two API requests and at most one payment attempt,
and whenever the retried (payment-attached) request itself comes back
402 the run ends in the `PaymentRejected` error — no third send and no
further payment attempt ever happens. -/
theorem double402_rejected_no_third_send :
    (∀ sigOf now nonce pk fromAddr apiUrl responses st,
      (evmRequestWithPayment sigOf now nonce pk fromAddr apiUrl responses st).2.2.sends ≤ 2 ∧
      (evmRequestWithPayment sigOf now nonce
          pk fromAddr apiUrl responses st).2.2.signCalls.length ≤ 1 ∧
      ((evmRequestWithPayment sigOf now nonce pk fromAddr apiUrl responses st).2.2.sends = 2 →
        (responses 1).status = 402 →
        (evmRequestWithPayment sigOf now nonce pk fromAddr apiUrl responses st).1 =
          .error (.paymentError evmRejectedMsg))) ∧
    (∀ builder pubKeyOf pk apiUrl rpcUrl responses st,
      (solRequestWithPayment builder pubKeyOf pk apiUrl rpcUrl responses st).2.2.sends ≤ 2 ∧
      (solRequestWithPayment builder pubKeyOf pk apiUrl
          rpcUrl responses st).2.2.builderCalls.length ≤ 1 ∧
      ((solRequestWithPayment builder pubKeyOf pk apiUrl rpcUrl responses st).2.2.sends = 2 →
        (responses 1).status = 402 →
        (solRequestWithPayment builder pubKeyOf pk apiUrl rpcUrl responses st).1 =
          .error (.paymentError solRejectedMsg))) :=
  ⟨fun sigOf now nonce pk fromAddr apiUrl responses st =>
      evm_run_bound sigOf now nonce pk fromAddr apiUrl responses st,
   fun builder pubKeyOf pk apiUrl rpcUrl responses st =>
      sol_run_bound builder pubKeyOf pk apiUrl rpcUrl responses st⟩

set_option maxRecDepth 16000 in
/-- Witness for the C1 theorem: concrete double-402 runs of both rails
end in the rejection error. -/
theorem double402_rejected_no_third_send_witness :
    (evmRequestWithPayment sigOfFix 1000 "0xnonce" "0xpk" "0xFrom" "https://blockrun.ai/api"
        (seqTwo resp402Evm resp402Bare) initialSpend).1 =
      .error (.paymentError evmRejectedMsg) ∧
    (solRequestWithPayment solBuilderFix pubKeyOfFix "solkey" "https://sol.blockrun.ai/api"
        "https://api.mainnet-beta.solana.com" (seqTwo resp402Sol resp402Bare)
        initialSpend).1 = .error (.paymentError solRejectedMsg) :=
  ⟨(double402_rejected_no_third_send.1 sigOfFix 1000 "0xnonce" "0xpk" "0xFrom"
      "https://blockrun.ai/api" (seqTwo resp402Evm resp402Bare) initialSpend).2.2
      (by rfl) (by rfl),
   (double402_rejected_no_third_send.2 solBuilderFix pubKeyOfFix "solkey"
      "https://sol.blockrun.ai/api" "https://api.mainnet-beta.solana.com"
      (seqTwo resp402Sol resp402Bare) initialSpend).2.2 (by rfl) (by rfl)⟩

set_option maxRecDepth 16000 in
/-- Claim C7 (counterexample): an error path on which the accumulator
*is* mutated — the retried request returns 200 but its body fails to
parse as JSON; the run surfaces an error, yet the call count was already
incremented from 0 to 1 before the failure. -/
theorem evm_spend_error_path :
    (evmRequestWithPayment sigOfFix 1000 "0xnonce" "0xpk" "0xFrom" "https://blockrun.ai/api"
        (seqTwo resp402Evm resp200BadJson) initialSpend).1 = .error .jsonError ∧
    (evmRequestWithPayment sigOfFix 1000 "0xnonce" "0xpk" "0xFrom" "https://blockrun.ai/api"
        (seqTwo resp402Evm resp200BadJson) initialSpend).2.1.calls = 1 ∧
    initialSpend.calls = 0 :=
  ⟨rfl, rfl, rfl⟩

/-- `parseFloat("1000000")` is exactly one million. -/
lemma parseFloatStr_million : parseFloatStr "1000000" = some 1000000 := by
  have h : parseFloatStr "1000000" =
      some ((digitsToNat ['1', '0', '0', '0', '0', '0', '0'] : ℚ) +
        (digitsToNat ([] : List Char) : ℚ) / (10 : ℚ) ^ List.length ([] : List Char)) := rfl
  have hd : digitsToNat ['1', '0', '0', '0', '0', '0', '0'] = 1000000 := by decide
  have hz : digitsToNat ([] : List Char) = 0 := rfl
  rw [h, hd, hz]
  norm_num

set_option maxRecDepth 16000 in
/-- Claim C7 (amended): the session spend accumulator of one run either
stays exactly as it was, or — precisely when the first response was a
402 and the issued retry came back 2xx — the call count increments by
exactly one and the total grows by exactly `parseFloat(amount)/1e6` for
the amount extracted from the challenge; it is never reset, and the
spec\x27s end-to-end scenario (one paid call of amount "1000000") leaves
`totalUsd = 1.0, calls = 1`.  The one divergence from the claim: when
the 2xx retry body then fails to parse as JSON, the error propagates
*after* the accumulator was already updated, so that error path does
mutate the accumulator. -/
theorem evm_spend_accumulator :
    (∀ sigOf now nonce pk fromAddr apiUrl responses st,
      (evmRequestWithPayment sigOf now nonce pk fromAddr apiUrl responses st).2.1 = st ∨
      ((responses 0).status = 402 ∧ (responses 1).status ≠ 402 ∧ (responses 1).ok = true ∧
       (evmRequestWithPayment sigOf now nonce pk fromAddr apiUrl responses st).2.1.calls =
         st.calls + 1 ∧
       ∃ hdr pr details,
         locateChallenge ("x402", "accepts") (responses 0) = some hdr ∧
         parsePaymentRequired hdr = .ok pr ∧
         extractPaymentDetails pr none = .ok details ∧
         (evmRequestWithPayment sigOf now nonce pk fromAddr apiUrl responses st).2.1.totalUsd =
           addUsd st.totalUsd ((jsParseFloat details.amount).map (fun q => q / 1000000)))) ∧
    (evmRequestWithPayment sigOfFix 1000 "0xnonce" "0xpk" "0xFrom" "https://blockrun.ai/api"
        (seqTwo resp402Evm resp200Ok) initialSpend).2.1.calls = 1 ∧
    (evmRequestWithPayment sigOfFix 1000 "0xnonce" "0xpk" "0xFrom" "https://blockrun.ai/api"
        (seqTwo resp402Evm resp200Ok) initialSpend).2.1.totalUsd = some 1 := by
  refine ⟨fun sigOf now nonce pk fromAddr apiUrl responses st => ?_, rfl, ?_⟩
  · unfold evmRequestWithPayment
    by_cases h0 : (responses 0).status = 402
    · rw [if_pos h0]
      unfold evmHandlePaymentAndRetry
      cases hloc : locateChallenge ("x402", "accepts") (responses 0) with
      | none => left; rfl
      | some hdr =>
        dsimp only
        cases hparse : parsePaymentRequired hdr with
        | error e => left; rfl
        | ok pr =>
          dsimp only
          cases hex : extractPaymentDetails pr none with
          | error e => left; rfl
          | ok details =>
            dsimp only
            cases hext : pr.getProp "extensions" with
            | error u => left; cases u; rfl
            | ok extensions =>
              dsimp only
              cases hbuild : createPaymentPayload sigOf now nonce pk fromAddr
                  details.recipient details.amount
                  (details.network.jsOr (.str "eip155:8453"))
                  (evmBuildOptions apiUrl details extensions) with
              | none => left; rfl
              | some sp =>
                obtain ⟨signArgs, pd⟩ := sp
                dsimp only
                by_cases h1 : (responses 1).status = 402
                · rw [if_pos h1]; left; rfl
                · rw [if_neg h1]
                  by_cases hok : (responses 1).ok = true
                  · rw [if_neg (by simp [hok])]
                    refine Or.inr ⟨h0, h1, hok, ?_, hdr, pr, details,
                      rfl, hparse, hex, ?_⟩ <;>
                      cases hbody : (responses 1).body <;> rfl
                  · rw [if_pos (by simp [Bool.not_eq_true] at hok; simp [hok])]
                    left; rfl
    · rw [if_neg h0]
      by_cases hok : (responses 0).ok = true
      · rw [if_neg (by simp [hok])]
        cases hbody : (responses 0).body <;> (left; rfl)
      · rw [if_pos (by simp [Bool.not_eq_true] at hok; simp [hok])]
        left; rfl
  · show addUsd (some 0) ((parseFloatStr "1000000").map (fun q => q / 1000000)) = some 1
    rw [parseFloatStr_million]
    show some ((0 : ℚ) + (1000000 : ℚ) / 1000000) = some 1
    norm_num

set_option maxRecDepth 16000 in
/-- Witness for the amended C7 theorem: on the bare-402-then-200 run the
disjunction resolves to the untouched accumulator (no challenge was
found, so nothing was paid). -/
theorem evm_spend_accumulator_witness :
    (evmRequestWithPayment sigOfFix 1000 "0xnonce" "0xpk" "0xFrom" "https://blockrun.ai/api"
        (seqTwo resp402Bare resp200Ok) initialSpend).2.1 = initialSpend := by
  rcases evm_spend_accumulator.1 sigOfFix 1000 "0xnonce" "0xpk" "0xFrom"
      "https://blockrun.ai/api" (seqTwo resp402Bare resp200Ok) initialSpend with h | h
  · exact h
  · obtain ⟨_, _, _, _, hdr, pr, details, hloc, _⟩ := h
    exact absurd hloc (by intro hc; exact Option.noConfusion hc)

/-- Claim C8: on the Solana rail, a challenge whose selected requirement
carries no truthy `extra.feePayer` makes the run fail with the
MissingFeePayer `PaymentError` with the transaction builder — the sole
owner of all RPC traffic — never invoked and no retry sent: the check
strictly precedes the builder, and no fee payer is defaulted. -/
theorem sol_missing_feepayer_before_builder :
    ∀ builder pubKeyOf pk apiUrl rpcUrl responses st hdr pr details,
      (responses 0).status = 402 →
      locateChallenge ("accepts", "x402Version") (responses 0) = some hdr →
      parsePaymentRequired hdr = .ok pr →
      extractPaymentDetails pr (some SOLANA_NETWORK) = .ok details →
      (∃ s, details.network = .str s ∧ jsStartsWith s "solana:" = true) →
      (details.extra.optProp "feePayer").truthy = false →
      solRequestWithPayment builder pubKeyOf pk apiUrl rpcUrl responses st =
        (.error (.paymentError missingFeePayerMsg), st, ⟨1, []⟩) := by
  intro builder pubKeyOf pk apiUrl rpcUrl responses st hdr pr details
    h402 hloc hparse hex hrail hfp
  obtain ⟨s, hs, hsw⟩ := hrail
  unfold solRequestWithPayment solHandlePaymentAndRetry
  rw [if_pos h402, hloc]
  dsimp only
  rw [hparse]
  dsimp only
  rw [hex]
  dsimp only
  rw [hs]
  dsimp only
  rw [hsw]
  dsimp only
  simp [hfp]

set_option maxRecDepth 16000 in
/-- Witness for the C8 theorem: the concrete fee-payer-less Solana
challenge fails with MissingFeePayer, one send, zero builder calls. -/
theorem sol_missing_feepayer_before_builder_witness :
    solRequestWithPayment solBuilderFix pubKeyOfFix "solkey" "https://sol.blockrun.ai/api"
        "https://api.mainnet-beta.solana.com" (seqTwo resp402SolNoFee resp200Ok)
        initialSpend =
      (.error (.paymentError missingFeePayerMsg), initialSpend, ⟨1, []⟩) :=
  sol_missing_feepayer_before_builder solBuilderFix pubKeyOfFix "solkey"
    "https://sol.blockrun.ai/api" "https://api.mainnet-beta.solana.com"
    (seqTwo resp402SolNoFee resp200Ok) initialSpend fixSolNoFeeHeader _ _
    rfl (by rfl) (by rfl) (by rfl) ⟨SOLANA_NETWORK, by rfl, by rfl⟩ (by rfl)

end BlockRun
